import Mathlib

/-!
Shallow embedding of the points ledger, token authority and redemption
engine of the `api-fidelidad` repository.

The definitions below are translated from the JavaScript source:
* `src/services/qrService.js` (validarQR, marcarComoUsado, expiry),
* `src/models/QrToken.js` (estaExpirado),
* `src/controllers/empresaController.js` (agregarPuntos),
* `src/controllers/canjeController.js` (canjear, marcarEntregado, cancelar),
* `src/models/Usuario.js`, `src/models/Recompensa.js`, `src/models/Canje.js`
  (data shapes; schema constraints such as `puntosRequeridos >= 1` appear as
  hypotheses of the theorems rather than in the types).

Mongoose documents are modelled as plain structures; `ObjectId`s as `Nat`;
monetary amounts as `ℚ` (with `none` standing for a `NaN` parse) and point
balances as `Int`; wall-clock instants as `Int`.  A controller's early
`return res.status(4xx)` paths are the `error` branches of an `Except`:
they happen before any `save`, so the error value carries no new state.
-/

abbrev UserId := Nat

abbrev RecompensaId := Nat

/-- One entry of `Usuario.puntosPorEmpresa` (src/models/Usuario.js): the
per-issuer partition of a customer's balance. -/
structure PuntosEmpresa where
  empresa : UserId
  puntos : Int
  ultimaTransaccion : Int
  deriving Repr, DecidableEq

/-- Sum of the per-issuer balances, the right-hand side of the conservation
invariant `puntos = sum(puntosPorEmpresa[*].puntos)`. -/
def sumPuntos (l : List PuntosEmpresa) : Int :=
  (l.map PuntosEmpresa.puntos).sum

/-- Balance held with issuer `eid`: the `puntos` of the first matching entry,
`0` when there is none.  Mirrors the `findIndex` / ternary at
canjeController.js:97-104. -/
def puntosEnEmpresa : List PuntosEmpresa → UserId → Int
  | [], _ => 0
  | pe :: rest, eid => if pe.empresa = eid then pe.puntos else puntosEnEmpresa rest eid

/-- Credit `pts` to the per-issuer entry for `eid`: the first matching entry is
incremented and its `ultimaTransaccion` stamped, otherwise a fresh entry is
pushed.  This is the `findIndex` / `+=` / `push` block that appears verbatim
both in empresaController.js:122-137 (agregarPuntos) and in
canjeController.js:455-470 (cancelar's compensating re-credit). -/
def acreditarPuntosEmpresa : List PuntosEmpresa → UserId → Int → Int → List PuntosEmpresa
  | [], eid, pts, now => [⟨eid, pts, now⟩]
  | pe :: rest, eid, pts, now =>
    if pe.empresa = eid then
      { pe with puntos := pe.puntos + pts, ultimaTransaccion := now } :: rest
    else
      pe :: acreditarPuntosEmpresa rest eid pts now

/-- Debit `req` from the per-issuer entry for `eid`, clamping the result at
zero; entries for other issuers and the no-entry case are untouched.  Mirrors
canjeController.js:146-153. -/
def restarPuntosEmpresa : List PuntosEmpresa → UserId → Int → List PuntosEmpresa
  | [], _, _ => []
  | pe :: rest, eid, req =>
    if pe.empresa = eid then
      { pe with puntos := if pe.puntos - req < 0 then 0 else pe.puntos - req } :: rest
    else
      pe :: restarPuntosEmpresa rest eid req

/-- The customer-side fields of `Usuario` that the ledger reads and writes. -/
structure Cliente where
  puntos : Int
  puntosPorEmpresa : List PuntosEmpresa
  activo : Bool
  deriving Repr, DecidableEq

/-- `Usuario.configuracionPuntos`: for every `gastoRequerido` pesos spent the
customer earns `puntosOtorgados` points. -/
structure ConfiguracionPuntos where
  gastoRequerido : ℚ
  puntosOtorgados : Int
  deriving Repr, DecidableEq

/-- The fallback `{ gastoRequerido: 100, puntosOtorgados: 1 }` used at
empresaController.js:102-105 when the business has no stored formula. -/
def configuracionPorDefecto : ConfiguracionPuntos := ⟨100, 1⟩

/-- The ledger-relevant fields of `Recompensa` (src/models/Recompensa.js).
`stock = -1` means unlimited. -/
structure Recompensa where
  empresa : UserId
  puntosRequeridos : Int
  stock : Int
  activo : Bool
  canjesRealizados : Int
  deriving Repr, DecidableEq

/-- `Canje.estado` enum (src/models/Canje.js). -/
inductive EstadoCanje
  | pendiente
  | entregado
  | cancelado
  deriving Repr, DecidableEq

/-- A redemption record (src/models/Canje.js). -/
structure Canje where
  id : Nat
  cliente : UserId
  recompensa : RecompensaId
  empresa : UserId
  puntosCanjeados : Int
  puntosAnteriores : Int
  puntosRestantes : Int
  estado : EstadoCanje
  fechaEntrega : Option Int
  deriving Repr, DecidableEq

/-- A QR authorization token (src/models/QrToken.js). -/
structure QrToken where
  token : Nat
  clienteId : UserId
  expiraEn : Int
  usado : Bool
  usadoPor : Option UserId
  deriving Repr, DecidableEq

/-- `qrTokenSchema.methods.estaExpirado` (QrToken.js:65-67):
`new Date() > this.expiraEn`. -/
def QrToken.estaExpirado (t : QrToken) (now : Int) : Bool :=
  t.expiraEn < now

/-- Outcome of `qrService.validarQR`, one constructor per `codigo` the service
returns; `qrValid` carries the populated customer document. -/
inductive ResultadoQR
  | qrNotFound
  | qrExpired
  | qrUsed
  | clientNotFound
  | clientInactive
  | qrValid (cliente : Cliente)
  deriving Repr, DecidableEq

/-- `qrService.validarQR` (qrService.js:84-145).  The input is the result of
`QrToken.findOne({token}).populate('clienteId')`: `none` when the token is
absent (never issued, or already purged by the TTL sweep), otherwise the token
document paired with the populated customer (`none` when the referenced
customer no longer exists).  The function only reads state. -/
def validarQR (lookup : Option (QrToken × Option Cliente)) (now : Int) : ResultadoQR :=
  match lookup with
  | none => .qrNotFound
  | some (t, cl?) =>
    if t.estaExpirado now then .qrExpired
    else if t.usado then .qrUsed
    else
      match cl? with
      | none => .clientNotFound
      | some cl => if cl.activo = false then .clientInactive else .qrValid cl

/-- `qrService.marcarComoUsado` (qrService.js:152-161): an unconditional
`findOneAndUpdate({token}, {usado: true, usadoPor})` — the update is not
guarded on `usado` being false. -/
def marcarComoUsado (t : QrToken) (empresaId : UserId) : QrToken :=
  { t with usado := true, usadoPor := some empresaId }

/-- `Math.floor(montoNumerico / gastoRequerido) * puntosOtorgados`
(empresaController.js:107). -/
def calcularPuntos (c : ConfiguracionPuntos) (monto : ℚ) : Int :=
  Int.floor (monto / c.gastoRequerido) * c.puntosOtorgados

/-- The failure responses of `agregarPuntos`. -/
inductive ErrorAgregar
  | montoInvalido
  | qrInvalido (r : ResultadoQR)
  deriving Repr, DecidableEq

/-- Successful outcome of `agregarPuntos`: the updated customer, the credit
amounts, and the token after `marcarComoUsado`. -/
structure ResultadoAgregar where
  cliente : Cliente
  puntosAnteriores : Int
  puntosCalculados : Int
  tokenUsado : QrToken
  deriving Repr, DecidableEq

/-- `empresaController.agregarPuntos` (empresaController.js:68-204).
`monto?` is the `parseFloat` of the request's amount, `none` when it is `NaN`;
the amount check precedes the QR validation, exactly as in the source.
`lookup` is the token fetch as in `validarQR`. -/
def agregarPuntos (config? : Option ConfiguracionPuntos) (monto? : Option ℚ)
    (lookup : Option (QrToken × Option Cliente)) (now : Int) (empresaId : UserId) :
    Except ErrorAgregar ResultadoAgregar :=
  match monto? with
  | none => .error .montoInvalido
  | some monto =>
    if monto ≤ 0 then .error .montoInvalido
    else
      match validarQR lookup now with
      | .qrValid cliente =>
        let config := config?.getD configuracionPorDefecto
        let puntosCalculados := calcularPuntos config monto
        let puntosAnteriores := cliente.puntos
        let cliente' : Cliente :=
          { cliente with
            puntos := cliente.puntos + puntosCalculados,
            puntosPorEmpresa :=
              acreditarPuntosEmpresa cliente.puntosPorEmpresa empresaId puntosCalculados now }
        match lookup with
        | some (tok, _) =>
          .ok ⟨cliente', puntosAnteriores, puntosCalculados, marcarComoUsado tok empresaId⟩
        | none => .error (.qrInvalido .qrNotFound)
      | r => .error (.qrInvalido r)

/-- The failure responses of `canjear`, each carrying the context the JSON
response reports. -/
inductive ErrorCanje
  | recompensaNoEncontrada
  | recompensaNoDisponible
  | recompensaAgotada
  | puntosInsuficientes (actuales requeridos faltantes : Int)
  | puntosInsuficientesEmpresa (enEmpresa requeridos faltantes : Int)
  deriving Repr, DecidableEq

/-- Successful outcome of `canjear`: updated customer, updated reward, and the
new pending redemption record. -/
structure ResultadoCanje where
  cliente : Cliente
  recompensa : Recompensa
  canje : Canje
  deriving Repr, DecidableEq

/-- `canjeController.canjear` (canjeController.js:33-208), the pure
read-check-compute part; `recompensa?` is the `findById` result.  All error
returns happen before the first `save`, so they produce no state. -/
def canjear (cliente : Cliente) (recompensa? : Option Recompensa)
    (clienteId : UserId) (recompensaId : RecompensaId) (canjeId : Nat) :
    Except ErrorCanje ResultadoCanje :=
  match recompensa? with
  | none => .error .recompensaNoEncontrada
  | some recompensa =>
    if recompensa.activo = false then .error .recompensaNoDisponible
    else if recompensa.stock ≠ -1 ∧ recompensa.stock ≤ 0 then .error .recompensaAgotada
    else if cliente.puntos < recompensa.puntosRequeridos then
      .error (.puntosInsuficientes cliente.puntos recompensa.puntosRequeridos
        (recompensa.puntosRequeridos - cliente.puntos))
    else
      let enEmpresa := puntosEnEmpresa cliente.puntosPorEmpresa recompensa.empresa
      if enEmpresa < recompensa.puntosRequeridos then
        .error (.puntosInsuficientesEmpresa enEmpresa recompensa.puntosRequeridos
          (recompensa.puntosRequeridos - enEmpresa))
      else
        let puntosAnteriores := cliente.puntos
        let puntosRestantes := puntosAnteriores - recompensa.puntosRequeridos
        let canje : Canje :=
          ⟨canjeId, clienteId, recompensaId, recompensa.empresa,
            recompensa.puntosRequeridos, puntosAnteriores, puntosRestantes,
            .pendiente, none⟩
        let cliente' : Cliente :=
          { cliente with
            puntos := puntosRestantes,
            puntosPorEmpresa :=
              restarPuntosEmpresa cliente.puntosPorEmpresa recompensa.empresa
                recompensa.puntosRequeridos }
        let recompensa' : Recompensa :=
          { recompensa with
            stock := if recompensa.stock ≠ -1 then recompensa.stock - 1 else recompensa.stock,
            canjesRealizados := recompensa.canjesRealizados + 1 }
        .ok ⟨cliente', recompensa', canje⟩

/-- The customer-side compensation of `cancelar` (canjeController.js:447-470):
add the spent points back to the global balance and to the issuer partition
(creating the entry in the "caso raro" that it is missing). -/
def devolverPuntos (cliente : Cliente) (canje : Canje) (now : Int) : Cliente :=
  { cliente with
    puntos := cliente.puntos + canje.puntosCanjeados,
    puntosPorEmpresa :=
      acreditarPuntosEmpresa cliente.puntosPorEmpresa canje.empresa canje.puntosCanjeados now }

/-- Persist an updated redemption document: replace the entry with the same
`_id` (Mongoose `save` on a fetched document). -/
def actualizarCanje : List Canje → Canje → List Canje
  | [], _ => []
  | c :: rest, c' => if c.id = c'.id then c' :: rest else c :: actualizarCanje rest c'

/-- The persistent state the redemption engine touches: the customer, the
reward referenced by the redemption (`none` when it was deleted), and the
redemption collection. -/
structure EstadoDB where
  cliente : Cliente
  recompensa? : Option Recompensa
  canjes : List Canje
  deriving Repr, DecidableEq

/-- The failure responses of `marcarEntregado`: the two terminal-state
rejections are distinct messages in the source (canjeController.js:383-395). -/
inductive ErrorEntregar
  | canjeNoEncontrado
  | yaEntregado
  | canjeCancelado
  deriving Repr, DecidableEq

/-- `canjeController.marcarEntregado` (canjeController.js:369-421): fetch by
`{_id, empresa}` (no state filter), reject when the redemption is already
`entregado` or `cancelado`, otherwise stamp it delivered. -/
def marcarEntregado (s : EstadoDB) (canjeId : Nat) (empresaId : UserId) (now : Int) :
    Except ErrorEntregar EstadoDB :=
  match s.canjes.find? (fun c => c.id == canjeId && c.empresa == empresaId) with
  | none => .error .canjeNoEncontrado
  | some canje =>
    if canje.estado = .entregado then .error .yaEntregado
    else if canje.estado = .cancelado then .error .canjeCancelado
    else
      .ok { s with canjes :=
        actualizarCanje s.canjes { canje with estado := .entregado, fechaEntrega := some now } }

/-- The sole failure response of `cancelar`: the source fetches with
`findOne({_id, empresa, estado: 'pendiente'})` (canjeController.js:429-439),
so a terminal redemption and a nonexistent one produce the same 404
`"Canje no encontrado o no se puede cancelar"`. -/
inductive ErrorCancelar
  | canjeNoEncontradoONoCancelable
  deriving Repr, DecidableEq

/-- How a controller run ends: a 2xx success, a 4xx rejection from one of the
controller's own validation checks, or a 500 `catch` after an exception thrown
by a storage `save`. -/
inductive RespuestaCanje
  | exito
  | rechazo (e : ErrorCanje)
  | errorInterno
  deriving Repr, DecidableEq

/-- `canjear` at storage granularity.  The three `save` calls run in source
order — `canje.save()` (canjeController.js:140), `clienteActualizado.save()`
(line 155), `recompensa.save()` (line 162) — with no surrounding transaction;
`fallaEn = some k` makes the `k`-th save throw, which the controller's `catch`
turns into a 500 response without undoing earlier saves.  The returned state
is what the database holds afterwards.  (The trailing notification call
cannot throw: `notificacionService` catches internally.) -/
def canjearConFallo (s : EstadoDB) (clienteId : UserId) (recompensaId : RecompensaId)
    (canjeId : Nat) (fallaEn : Option Nat) : RespuestaCanje × EstadoDB :=
  match canjear s.cliente s.recompensa? clienteId recompensaId canjeId with
  | .error e => (.rechazo e, s)
  | .ok r =>
    if fallaEn = some 0 then (.errorInterno, s)
    else
      let s0 := { s with canjes := s.canjes ++ [r.canje] }
      if fallaEn = some 1 then (.errorInterno, s0)
      else
        let s1 := { s0 with cliente := r.cliente }
        if fallaEn = some 2 then (.errorInterno, s1)
        else (.exito, { s1 with recompensa? := some r.recompensa })

/-- How a `cancelar` run ends (same reading as `RespuestaCanje`). -/
inductive RespuestaCancelar
  | exito
  | rechazo (e : ErrorCancelar)
  | errorInterno
  deriving Repr, DecidableEq

/-- `cancelar` at storage granularity (canjeController.js:427-509).  Save
order: `cliente.save()` (line 472), `recompensa.save()` (line 481, only when
the reward still exists), `canje.save()` (line 486).  `fallaEn = some k` makes
the `k`-th executed save throw; the `catch` returns a 500 leaving every
earlier save in place. -/
def cancelarConFallo (s : EstadoDB) (canjeId : Nat) (empresaId : UserId) (now : Int)
    (fallaEn : Option Nat) : RespuestaCancelar × EstadoDB :=
  match s.canjes.find? (fun c =>
      c.id == canjeId && c.empresa == empresaId && c.estado == EstadoCanje.pendiente) with
  | none => (.rechazo .canjeNoEncontradoONoCancelable, s)
  | some canje =>
    if fallaEn = some 0 then (.errorInterno, s)
    else
      let s0 := { s with cliente := devolverPuntos s.cliente canje now }
      match s0.recompensa? with
      | some r =>
        let r' : Recompensa :=
          { r with
            stock := if r.stock ≠ -1 then r.stock + 1 else r.stock,
            canjesRealizados := max 0 (r.canjesRealizados - 1) }
        if fallaEn = some 1 then (.errorInterno, s0)
        else
          let s1 := { s0 with recompensa? := some r' }
          if fallaEn = some 2 then (.errorInterno, s1)
          else (.exito, { s1 with canjes := actualizarCanje s1.canjes { canje with estado := .cancelado } })
      | none =>
        if fallaEn = some 1 then (.errorInterno, s0)
        else (.exito, { s0 with canjes := actualizarCanje s0.canjes { canje with estado := .cancelado } })

/-- `canjeController.cancelar` in the fault-free run. -/
def cancelar (s : EstadoDB) (canjeId : Nat) (empresaId : UserId) (now : Int) :
    RespuestaCancelar × EstadoDB :=
  cancelarConFallo s canjeId empresaId now none

/-!
Interleaved consumption of one token.  `agregarPuntos` performs two separate
atomic storage operations on the token: the `findOne` read inside `validarQR`
(empresaController.js:91) and, much later, the unconditional
`findOneAndUpdate` of `marcarComoUsado` (line 162).  Two concurrent requests
on the same token are modelled as two little programs, each advancing through
`validar` (program counter 0) and `marcar` (program counter 1); a schedule
picks which request performs its next storage operation. -/

/-- Shared token plus the two requests' program counters:
`0` = before `validarQR`, `1` = validated OK and about to mark,
`2` = finished with success, `3` = finished with a 400 rejection. -/
structure EstadoConsumo where
  token : QrToken
  pc1 : Nat
  pc2 : Nat
  deriving Repr, DecidableEq

/-- One atomic storage step of request `i` (customer document and clock held
fixed; both requests are within the token's lifetime). -/
def pasoConsumo (cl : Cliente) (now : Int) (eid1 eid2 : UserId)
    (s : EstadoConsumo) (i : Fin 2) : EstadoConsumo :=
  let paso (pc : Nat) (eid : UserId) : Nat × QrToken :=
    match pc with
    | 0 =>
      match validarQR (some (s.token, some cl)) now with
      | .qrValid _ => (1, s.token)
      | _ => (3, s.token)
    | 1 => (2, marcarComoUsado s.token eid)
    | pc => (pc, s.token)
  if i = 0 then
    let (pc, t) := paso s.pc1 eid1
    { s with pc1 := pc, token := t }
  else
    let (pc, t) := paso s.pc2 eid2
    { s with pc2 := pc, token := t }

/-- Run a schedule of interleaved steps. -/
def ejecutarConsumo (cl : Cliente) (now : Int) (eid1 eid2 : UserId)
    (sched : List (Fin 2)) (s : EstadoConsumo) : EstadoConsumo :=
  sched.foldl (pasoConsumo cl now eid1 eid2) s

/-!
Sequences of ledger operations on one customer, for the conservation
invariant. -/

/-- One ledger operation on a customer: a credit (`agregarPuntos`), a debit
(`canjear`), or the compensating re-credit of `cancelar`. -/
inductive OperacionLedger
  | credito (config? : Option ConfiguracionPuntos) (monto? : Option ℚ)
      (tok : QrToken) (now : Int) (eid : UserId)
  | debito (recompensa? : Option Recompensa) (clienteId : UserId)
      (recompensaId : RecompensaId) (canjeId : Nat)
  | devolucion (canje : Canje) (now : Int)

/-- Schema constraint on the operations of a run: a debit's reward requires at
least one point (`Recompensa.puntosRequeridos` has `min: 1` in
src/models/Recompensa.js). -/
def operacionBienFormada : OperacionLedger → Bool
  | .debito (some r) _ _ _ => decide (1 ≤ r.puntosRequeridos)
  | _ => true

/-- Apply one operation to the customer; a failed operation returns before any
`save`, leaving the customer unchanged. -/
def pasoLedger (cl : Cliente) : OperacionLedger → Cliente
  | .credito config? monto? tok now eid =>
    match agregarPuntos config? monto? (some (tok, some cl)) now eid with
    | .ok r => r.cliente
    | .error _ => cl
  | .debito recompensa? clienteId recompensaId canjeId =>
    match canjear cl recompensa? clienteId recompensaId canjeId with
    | .ok r => r.cliente
    | .error _ => cl
  | .devolucion canje now => devolverPuntos cl canje now

/-- The conservation invariant of src/models/Usuario.js: the global balance
equals the sum of the per-issuer partitions. -/
def invarianteConservacion (cl : Cliente) : Prop :=
  cl.puntos = sumPuntos cl.puntosPorEmpresa

/-- A `Transaccion` ledger record (src/models/Transaccion.js), appended by
`agregarPuntos` at empresaController.js:150-159. -/
structure Transaccion where
  cliente : UserId
  empresa : UserId
  monto : ℚ
  puntosOtorgados : Int
  puntosAnteriores : Int
  puntosNuevos : Int
  qrToken : Nat
  deriving Repr, DecidableEq

/-- The persistent state the credit path touches: the customer, the crediting
business's informational counters (`totalTransacciones`, `totalIngresos`), the
transaction log and the token under consumption (`none` when absent or
purged). -/
structure EstadoCreditoDB where
  cliente : Cliente
  totalTransacciones : Int
  totalIngresos : ℚ
  transacciones : List Transaccion
  token? : Option QrToken
  deriving Repr, DecidableEq

/-- How an `agregarPuntos` run ends (same reading as `RespuestaCanje`). -/
inductive RespuestaAgregar
  | exito
  | rechazo (e : ErrorAgregar)
  | errorInterno
  deriving Repr, DecidableEq

/-- `agregarPuntos` at storage granularity.  The four writes run in source
order — `cliente.save()` (empresaController.js:139), the stats
`findByIdAndUpdate` `$inc` (line 142), `transaccion.save()` (line 159) and
`marcarComoUsado`'s `findOneAndUpdate` (line 162) — with no surrounding
transaction; `fallaEn = some k` makes the `k`-th write throw, which the
controller's `catch` turns into a 500 response without undoing earlier
writes.  The token fetch populates the state's customer, and the trailing
notification call cannot throw (`notificacionService` catches internally). -/
def agregarPuntosConFallo (s : EstadoCreditoDB) (config? : Option ConfiguracionPuntos)
    (monto? : Option ℚ) (now : Int) (empresaId : UserId) (fallaEn : Option Nat) :
    RespuestaAgregar × EstadoCreditoDB :=
  match monto? with
  | none => (.rechazo .montoInvalido, s)
  | some monto =>
    match agregarPuntos config? (some monto)
        (s.token?.map (fun t => (t, some s.cliente))) now empresaId with
    | .error e => (.rechazo e, s)
    | .ok r =>
      if fallaEn = some 0 then (.errorInterno, s)
      else
        let s0 := { s with cliente := r.cliente }
        if fallaEn = some 1 then (.errorInterno, s0)
        else
          let s1 := { s0 with
            totalTransacciones := s0.totalTransacciones + 1,
            totalIngresos := s0.totalIngresos + monto }
          if fallaEn = some 2 then (.errorInterno, s1)
          else
            let s2 := { s1 with transacciones := s1.transacciones
              ++ [⟨r.tokenUsado.clienteId, empresaId, monto, r.puntosCalculados,
                    r.puntosAnteriores, r.cliente.puntos, r.tokenUsado.token⟩] }
            if fallaEn = some 3 then (.errorInterno, s2)
            else (.exito, { s2 with token? := some r.tokenUsado })

instance (cl : Cliente) : Decidable (invarianteConservacion cl) := by
  unfold invarianteConservacion
  infer_instance

/-! ### Lemmas about the per-issuer balance list -/

theorem sumPuntos_cons (pe : PuntosEmpresa) (l : List PuntosEmpresa) :
    sumPuntos (pe :: l) = pe.puntos + sumPuntos l := by
  simp [sumPuntos]

theorem sumPuntos_acreditar (l : List PuntosEmpresa) (eid : UserId) (pts now : Int) :
    sumPuntos (acreditarPuntosEmpresa l eid pts now) = sumPuntos l + pts := by
  induction l with
  | nil => simp [acreditarPuntosEmpresa, sumPuntos]
  | cons pe rest ih =>
    by_cases h : pe.empresa = eid
    · simp only [acreditarPuntosEmpresa, if_pos h, sumPuntos_cons]
      omega
    · simp only [acreditarPuntosEmpresa, if_neg h, sumPuntos_cons, ih]
      omega

theorem puntosEnEmpresa_acreditar (l : List PuntosEmpresa) (eid : UserId) (pts now : Int) :
    puntosEnEmpresa (acreditarPuntosEmpresa l eid pts now) eid
      = puntosEnEmpresa l eid + pts := by
  induction l with
  | nil => simp [acreditarPuntosEmpresa, puntosEnEmpresa]
  | cons pe rest ih =>
    by_cases h : pe.empresa = eid
    · simp [acreditarPuntosEmpresa, if_pos h, puntosEnEmpresa, h]
    · simp [acreditarPuntosEmpresa, if_neg h, puntosEnEmpresa, h, ih]

theorem sumPuntos_restar (l : List PuntosEmpresa) (eid : UserId) (req : Int)
    (h1 : 1 ≤ req) (h2 : req ≤ puntosEnEmpresa l eid) :
    sumPuntos (restarPuntosEmpresa l eid req) = sumPuntos l - req := by
  induction l with
  | nil => simp [puntosEnEmpresa] at h2; omega
  | cons pe rest ih =>
    by_cases h : pe.empresa = eid
    · rw [puntosEnEmpresa, if_pos h] at h2
      simp only [restarPuntosEmpresa, if_pos h, sumPuntos_cons]
      rw [if_neg (by omega)]
      omega
    · rw [puntosEnEmpresa, if_neg h] at h2
      simp only [restarPuntosEmpresa, if_neg h, sumPuntos_cons, ih h2]
      omega

theorem puntosEnEmpresa_restar (l : List PuntosEmpresa) (eid : UserId) (req : Int)
    (h1 : 1 ≤ req) (h2 : req ≤ puntosEnEmpresa l eid) :
    puntosEnEmpresa (restarPuntosEmpresa l eid req) eid = puntosEnEmpresa l eid - req := by
  induction l with
  | nil => simp [puntosEnEmpresa] at h2; omega
  | cons pe rest ih =>
    by_cases h : pe.empresa = eid
    · rw [puntosEnEmpresa, if_pos h] at h2
      simp only [restarPuntosEmpresa, if_pos h, puntosEnEmpresa, if_pos h]
      rw [if_neg (by omega)]
    · rw [puntosEnEmpresa, if_neg h] at h2
      simp only [restarPuntosEmpresa, if_neg h, puntosEnEmpresa, if_neg h, ih h2]

/-- A successful `validarQR` on a fetch that populated customer `cl` returns
that same customer. -/
theorem validarQR_qrValid_eq (tok : QrToken) (cl : Cliente) (now : Int) (x : Cliente)
    (h : validarQR (some (tok, some cl)) now = .qrValid x) : x = cl := by
  simp only [validarQR] at h
  split at h
  · exact absurd h (by simp)
  · split at h
    · exact absurd h (by simp)
    · split at h
      · exact absurd h (by simp)
      · injection h with h
        exact h.symm

/-- Each single ledger operation preserves the conservation invariant. -/
theorem pasoLedger_preserva (cl : Cliente) (op : OperacionLedger)
    (hinv : invarianteConservacion cl) (hop : operacionBienFormada op = true) :
    invarianteConservacion (pasoLedger cl op) := by
  cases op with
  | credito config? monto? tok now eid =>
    rcases monto? with _ | monto
    · exact hinv
    · simp only [pasoLedger]
      rcases h : agregarPuntos config? (some monto) (some (tok, some cl)) now eid with e | r
      · exact hinv
      · simp only [agregarPuntos] at h
        split at h
        · exact absurd h (by simp)
        · split at h
          · rename_i c heq
            have hc := validarQR_qrValid_eq tok cl now c heq
            subst hc
            injection h with h
            subst h
            simp only [invarianteConservacion, sumPuntos_acreditar]
            simp only [invarianteConservacion] at hinv
            omega
          · exact absurd h (by simp)
  | debito recompensa? clienteId recompensaId canjeId =>
    rcases recompensa? with _ | recompensa
    · exact hinv
    · simp only [operacionBienFormada, decide_eq_true_eq] at hop
      simp only [pasoLedger]
      rcases h : canjear cl (some recompensa) clienteId recompensaId canjeId with e | r
      · exact hinv
      · simp only [canjear] at h
        split at h
        · exact absurd h (by simp)
        · split at h
          · exact absurd h (by simp)
          · split at h
            · exact absurd h (by simp)
            · split at h
              · exact absurd h (by simp)
              · rename_i hact hstock hglob hemp
                injection h with h
                subst h
                simp only [invarianteConservacion] at hinv ⊢
                rw [sumPuntos_restar _ _ _ hop (by omega)]
                omega
  | devolucion canje now =>
    simp only [pasoLedger, devolverPuntos, invarianteConservacion] at hinv ⊢
    rw [sumPuntos_acreditar]
    omega

/-- C1.  Conservation: starting from any customer state satisfying the
invariant `puntos = sum(puntosPorEmpresa[*].puntos)`, any sequence of ledger
operations — credits (`agregarPuntos`), debits (`canjear`) and the
compensating re-credit of `cancelar` — preserves it; failed operations return
before any `save` and change nothing.  The only side condition is the schema
constraint `Recompensa.puntosRequeridos ≥ 1` on the rewards debited. -/
theorem conservacion_saldo_global (ops : List OperacionLedger) (cl : Cliente)
    (hinv : invarianteConservacion cl)
    (hops : ∀ op ∈ ops, operacionBienFormada op = true) :
    invarianteConservacion (ops.foldl pasoLedger cl) := by
  induction ops generalizing cl with
  | nil => exact hinv
  | cons op rest ih =>
    rw [List.foldl_cons]
    exact ih (pasoLedger cl op)
      (pasoLedger_preserva cl op hinv (hops op (by simp)))
      (fun o ho => hops o (by simp [ho]))

/-- Witness for `conservacion_saldo_global`: a credit of $250, a 10-point
redemption and its compensating re-credit, run on a concrete customer. -/
theorem conservacion_saldo_global_testigo :
    invarianteConservacion
      ([OperacionLedger.credito none (some 250) ⟨42, 10, 100, false, none⟩ 50 1,
        OperacionLedger.debito (some ⟨1, 10, -1, true, 0⟩) 10 7 1,
        OperacionLedger.devolucion ⟨1, 10, 7, 1, 10, 50, 40, .pendiente, none⟩ 60].foldl
        pasoLedger ⟨50, [⟨1, 30, 0⟩, ⟨2, 20, 0⟩], true⟩) :=
  conservacion_saldo_global _ _ (by decide) (by decide)

/-- C2.  The consume step is NOT an indivisible check-and-set: `agregarPuntos`
reads the token inside `validarQR` and only later runs the unconditional
`findOneAndUpdate` of `marcarComoUsado`.  Under the interleaving
validar₁, validar₂, marcar₁, marcar₂ of two concurrent requests on the same
fresh token, both requests finish in the success state (pc = 2), refuting
"exactly one invocation succeeds"; the same two requests run back to back
(validar₁, marcar₁, validar₂, marcar₂) give one success and one rejection,
confirming that only the lost atomicity is at fault. -/
theorem doble_consumo_concurrente :
    (ejecutarConsumo ⟨50, [], true⟩ 50 8 9 [0, 1, 0, 1]
        ⟨⟨42, 10, 100, false, none⟩, 0, 0⟩).pc1 = 2
    ∧ (ejecutarConsumo ⟨50, [], true⟩ 50 8 9 [0, 1, 0, 1]
        ⟨⟨42, 10, 100, false, none⟩, 0, 0⟩).pc2 = 2
    ∧ (ejecutarConsumo ⟨50, [], true⟩ 50 8 9 [0, 0, 1, 1]
        ⟨⟨42, 10, 100, false, none⟩, 0, 0⟩).pc1 = 2
    ∧ (ejecutarConsumo ⟨50, [], true⟩ 50 8 9 [0, 0, 1, 1]
        ⟨⟨42, 10, 100, false, none⟩, 0, 0⟩).pc2 = 3 := by
  decide

/-- C9.  The defensive clamp at canjeController.js:150-152 is unreachable in a
sequential run: whenever `canjear` succeeds, the issuer-balance guard already
ensured `puntosEnEmpresa ≥ puntosRequeridos`, so the subtraction never goes
negative and the post-redemption per-issuer balance is exactly the old balance
minus `puntosRequeridos` (the clamp branch does not alter the result).
`1 ≤ puntosRequeridos` is the schema minimum of src/models/Recompensa.js. -/
theorem clamp_inalcanzable_en_canje (cliente : Cliente) (recompensa : Recompensa)
    (clienteId : UserId) (recompensaId : RecompensaId) (canjeId : Nat) (r : ResultadoCanje)
    (hreq : 1 ≤ recompensa.puntosRequeridos)
    (hok : canjear cliente (some recompensa) clienteId recompensaId canjeId = .ok r) :
    0 ≤ puntosEnEmpresa cliente.puntosPorEmpresa recompensa.empresa
        - recompensa.puntosRequeridos
    ∧ puntosEnEmpresa r.cliente.puntosPorEmpresa recompensa.empresa
        = puntosEnEmpresa cliente.puntosPorEmpresa recompensa.empresa
          - recompensa.puntosRequeridos := by
  simp only [canjear] at hok
  split at hok
  · exact absurd hok (by simp)
  · split at hok
    · exact absurd hok (by simp)
    · split at hok
      · exact absurd hok (by simp)
      · split at hok
        · exact absurd hok (by simp)
        · rename_i hact hstock hglob hemp
          injection hok with hok
          subst hok
          refine ⟨by omega, ?_⟩
          exact puntosEnEmpresa_restar _ _ _ hreq (by omega)

/-- Witness for `clamp_inalcanzable_en_canje` at a concrete redemption:
balance 20 with the issuer, reward costing 10, leaving exactly 10. -/
theorem clamp_inalcanzable_en_canje_testigo :
    (1 : Int) ≤ 10
    ∧ canjear ⟨50, [⟨1, 20, 0⟩], true⟩ (some ⟨1, 10, -1, true, 0⟩) 10 7 1
        = .ok ⟨⟨40, [⟨1, 10, 0⟩], true⟩, ⟨1, 10, -1, true, 1⟩,
            ⟨1, 10, 7, 1, 10, 50, 40, .pendiente, none⟩⟩
    ∧ (0 ≤ puntosEnEmpresa [⟨1, 20, 0⟩] 1 - (10 : Int)
        ∧ puntosEnEmpresa [⟨1, 10, 0⟩] 1 = puntosEnEmpresa [⟨1, 20, 0⟩] 1 - 10) :=
  ⟨by decide, by rfl,
    clamp_inalcanzable_en_canje ⟨50, [⟨1, 20, 0⟩], true⟩ ⟨1, 10, -1, true, 0⟩ 10 7 1
      ⟨⟨40, [⟨1, 10, 0⟩], true⟩, ⟨1, 10, -1, true, 1⟩,
        ⟨1, 10, 7, 1, 10, 50, 40, .pendiente, none⟩⟩ (by decide) (by rfl)⟩

/-- C4.  Issuer-scoped redemption check: when the reward exists, is active and
in stock, and the customer's global balance covers the cost, but the balance
held with the reward's own business falls short, `canjear` rejects with the
issuer-insufficiency error — reporting the issuer balance, the requirement and
the shortfall — and the returned database state is exactly the pre-state (no
balance, stock or redemption record changes), whatever the fault schedule. -/
theorem canje_requiere_saldo_por_empresa (s : EstadoDB) (recompensa : Recompensa)
    (clienteId : UserId) (recompensaId : RecompensaId) (canjeId : Nat)
    (fallaEn : Option Nat)
    (hrec : s.recompensa? = some recompensa)
    (hact : recompensa.activo = true)
    (hstock : recompensa.stock = -1 ∨ 0 < recompensa.stock)
    (hglobal : recompensa.puntosRequeridos ≤ s.cliente.puntos)
    (hlocal : puntosEnEmpresa s.cliente.puntosPorEmpresa recompensa.empresa
        < recompensa.puntosRequeridos) :
    canjearConFallo s clienteId recompensaId canjeId fallaEn
      = (.rechazo (.puntosInsuficientesEmpresa
            (puntosEnEmpresa s.cliente.puntosPorEmpresa recompensa.empresa)
            recompensa.puntosRequeridos
            (recompensa.puntosRequeridos
              - puntosEnEmpresa s.cliente.puntosPorEmpresa recompensa.empresa)), s) := by
  have hc : canjear s.cliente s.recompensa? clienteId recompensaId canjeId
      = .error (.puntosInsuficientesEmpresa
          (puntosEnEmpresa s.cliente.puntosPorEmpresa recompensa.empresa)
          recompensa.puntosRequeridos
          (recompensa.puntosRequeridos
            - puntosEnEmpresa s.cliente.puntosPorEmpresa recompensa.empresa)) := by
    rw [hrec]
    simp only [canjear]
    rw [if_neg (by simp [hact]), if_neg (by omega), if_neg (by omega), if_pos hlocal]
  simp only [canjearConFallo, hc]

/-- Witness for `canje_requiere_saldo_por_empresa`: the spec's own example —
5 points with business 1, reward needs 10, global balance 50. -/
theorem canje_requiere_saldo_por_empresa_testigo :
    canjearConFallo ⟨⟨50, [⟨1, 5, 0⟩, ⟨2, 45, 0⟩], true⟩, some ⟨1, 10, 3, true, 2⟩, []⟩
        100 7 1 none
      = (.rechazo (.puntosInsuficientesEmpresa 5 10 5),
          ⟨⟨50, [⟨1, 5, 0⟩, ⟨2, 45, 0⟩], true⟩, some ⟨1, 10, 3, true, 2⟩, []⟩) := by
  have h := canje_requiere_saldo_por_empresa
    ⟨⟨50, [⟨1, 5, 0⟩, ⟨2, 45, 0⟩], true⟩, some ⟨1, 10, 3, true, 2⟩, []⟩
    ⟨1, 10, 3, true, 2⟩ 100 7 1 none rfl rfl (by decide) (by decide) (by decide)
  exact h

/-- C5.  Credit computation and validity boundary.  `agregarPuntos` fails with
the invalid-amount error exactly when the parsed amount is `NaN` or `≤ 0`
(this check precedes everything else); and for any positive amount presented
with a token that validates, it succeeds and credits exactly
`floor(monto / gastoRequerido) * puntosOtorgados` under the business's
formula, `{100, 1}` by default — in particular an amount below `gastoRequerido`
is a successful zero-point credit. -/
theorem credito_formula_y_frontera (config? : Option ConfiguracionPuntos)
    (monto? : Option ℚ) (lookup : Option (QrToken × Option Cliente)) (now : Int)
    (empresaId : UserId) :
    (agregarPuntos config? monto? lookup now empresaId = .error .montoInvalido
      ↔ monto? = none ∨ ∃ m, monto? = some m ∧ m ≤ 0)
    ∧ (∀ m cl, monto? = some m → 0 < m →
        validarQR lookup now = .qrValid cl →
        ∃ res, agregarPuntos config? monto? lookup now empresaId = .ok res
          ∧ res.puntosCalculados
              = Int.floor (m / (config?.getD configuracionPorDefecto).gastoRequerido)
                * (config?.getD configuracionPorDefecto).puntosOtorgados
          ∧ res.cliente.puntos = cl.puntos + res.puntosCalculados) := by
  constructor
  · rcases monto? with _ | m
    · simp [agregarPuntos]
    · simp only [agregarPuntos]
      by_cases hm : m ≤ 0
      · rw [if_pos hm]
        simp [hm]
      · rw [if_neg hm]
        constructor
        · intro h
          exfalso
          rcases lookup with _ | ⟨tok, cl?⟩
          · simp [validarQR] at h
          · rcases hq : validarQR (some (tok, cl?)) now <;> rw [hq] at h <;> simp at h
        · rintro (h | ⟨m', hm', hle⟩)
          · exact absurd h (by simp)
          · injection hm' with hm'
            subst hm'
            exact absurd hle hm
  · intro m cl hm hpos hq
    subst hm
    rcases lookup with _ | ⟨tok, cl?⟩
    · simp [validarQR] at hq
    · simp only [agregarPuntos]
      rw [if_neg (not_le.mpr hpos), hq]
      exact ⟨_, rfl, rfl, rfl⟩

/-- Witness for `credito_formula_y_frontera`: the spec's examples — a negative
amount is rejected, and $99 under the default `{100, 1}` formula is a
successful zero-point credit. -/
theorem credito_formula_y_frontera_testigo :
    (agregarPuntos none (some (-5))
        (some (⟨42, 10, 100, false, none⟩, some ⟨50, [], true⟩)) 0 2
      = .error .montoInvalido)
    ∧ (0 : ℚ) < 99
    ∧ validarQR (some (⟨42, 10, 100, false, none⟩, some ⟨50, [], true⟩)) 0
        = .qrValid ⟨50, [], true⟩
    ∧ ∃ res, agregarPuntos none (some 99)
          (some (⟨42, 10, 100, false, none⟩, some ⟨50, [], true⟩)) 0 2 = .ok res
        ∧ res.puntosCalculados = Int.floor ((99 : ℚ) / 100) * 1
        ∧ res.cliente.puntos = 50 + res.puntosCalculados := by
  refine ⟨?_, by norm_num, by rfl, ?_⟩
  · exact (credito_formula_y_frontera none (some (-5))
      (some (⟨42, 10, 100, false, none⟩, some ⟨50, [], true⟩)) 0 2).1.mpr
      (Or.inr ⟨-5, rfl, by norm_num⟩)
  · exact (credito_formula_y_frontera none (some 99)
      (some (⟨42, 10, 100, false, none⟩, some ⟨50, [], true⟩)) 0 2).2
      99 ⟨50, [], true⟩ rfl (by norm_num) rfl

/-- C6.  Expiry dominance: for a token whose `expiraEn` lies in the past,
`validarQR` fails with `QR_EXPIRED` for any value of the `usado` flag and any
state of the referenced customer, it fails with `QR_NOT_FOUND` when the TTL
purge has already removed the token, and in both situations the consuming
operation `agregarPuntos` ends in an error (hence writes nothing: its
crediting and `marcarComoUsado` happen only on the `ok` path). -/
theorem expiracion_domina (t : QrToken) (cl? : Option Cliente) (now : Int)
    (config? : Option ConfiguracionPuntos) (monto? : Option ℚ) (empresaId : UserId)
    (hexp : t.expiraEn < now) :
    validarQR (some (t, cl?)) now = .qrExpired
    ∧ validarQR none now = .qrNotFound
    ∧ (∃ e, agregarPuntos config? monto? (some (t, cl?)) now empresaId = .error e)
    ∧ (∃ e, agregarPuntos config? monto? none now empresaId = .error e) := by
  have hv : validarQR (some (t, cl?)) now = .qrExpired := by
    simp [validarQR, QrToken.estaExpirado, hexp]
  refine ⟨hv, rfl, ?_, ?_⟩
  · rcases monto? with _ | m
    · exact ⟨.montoInvalido, rfl⟩
    · by_cases hm : m ≤ 0
      · exact ⟨.montoInvalido, by simp [agregarPuntos, hm]⟩
      · exact ⟨.qrInvalido .qrExpired, by simp [agregarPuntos, hm, hv]⟩
  · rcases monto? with _ | m
    · exact ⟨.montoInvalido, rfl⟩
    · by_cases hm : m ≤ 0
      · exact ⟨.montoInvalido, by simp [agregarPuntos, hm]⟩
      · exact ⟨.qrInvalido .qrNotFound, by simp [agregarPuntos, validarQR, hm]⟩

/-- Witness for `expiracion_domina`: a token expired at instant 5, queried at
instant 10, already marked used — still reported expired, and the credit
attempt fails. -/
theorem expiracion_domina_testigo :
    (5 : Int) < 10
    ∧ validarQR (some (⟨42, 10, 5, true, none⟩, some ⟨50, [], true⟩)) 10 = .qrExpired
    ∧ (∃ e, agregarPuntos none (some 250)
        (some (⟨42, 10, 5, true, none⟩, some ⟨50, [], true⟩)) 10 2 = .error e) := by
  have h := expiracion_domina ⟨42, 10, 5, true, none⟩ (some ⟨50, [], true⟩) 10
    none (some 250) 2 (by decide)
  exact ⟨by decide, h.1, h.2.2.1⟩

/-- C10.  `validarQR` reports exactly one outcome, chosen by the fixed check
order not-found, expired, already-used, customer-missing, customer-inactive;
in particular a token both expired and used is reported `QR_EXPIRED`.  The
function's type (`Option (QrToken × Option Cliente) → Int → ResultadoQR`)
reflects that the source performs a single `findOne` and no write. -/
theorem validar_qr_precedencia (t : QrToken) (cl? : Option Cliente) (now : Int) :
    validarQR none now = .qrNotFound
    ∧ (t.estaExpirado now = true → validarQR (some (t, cl?)) now = .qrExpired)
    ∧ (t.estaExpirado now = false → t.usado = true →
        validarQR (some (t, cl?)) now = .qrUsed)
    ∧ (t.estaExpirado now = false → t.usado = false → cl? = none →
        validarQR (some (t, cl?)) now = .clientNotFound)
    ∧ (∀ cl, t.estaExpirado now = false → t.usado = false → cl? = some cl →
        cl.activo = false → validarQR (some (t, cl?)) now = .clientInactive)
    ∧ (∀ cl, t.estaExpirado now = false → t.usado = false → cl? = some cl →
        cl.activo = true → validarQR (some (t, cl?)) now = .qrValid cl) := by
  refine ⟨rfl, ?_, ?_, ?_, ?_, ?_⟩ <;> intros <;> simp_all [validarQR]

/-- Witness for `validar_qr_precedencia`: the expired-and-used token is
reported expired, not used. -/
theorem validar_qr_precedencia_testigo :
    QrToken.estaExpirado ⟨42, 10, 5, true, none⟩ 10 = true
    ∧ validarQR (some (⟨42, 10, 5, true, none⟩, some ⟨50, [], true⟩)) 10 = .qrExpired :=
  ⟨by decide,
    (validar_qr_precedencia ⟨42, 10, 5, true, none⟩ (some ⟨50, [], true⟩) 10).2.1
      (by decide)⟩

/-- C7 counterexample.  `cancelar` fetches with
`findOne({_id, empresa, estado: 'pendiente'})`, so cancelling an
already-cancelled redemption is rejected with exactly the same
not-found-or-not-cancellable error as cancelling a redemption that does not
exist at all: no distinct `RedemptionAlreadyTerminal` failure is ever
reported by `cancelar` (the state is nevertheless left unchanged). -/
theorem cancelar_terminal_error_de_no_encontrado :
    (cancelar ⟨⟨40, [], true⟩, none, [⟨1, 100, 7, 3, 10, 50, 40, .cancelado, none⟩]⟩
        1 3 99).1 = .rechazo .canjeNoEncontradoONoCancelable
    ∧ (cancelar ⟨⟨40, [], true⟩, none, []⟩ 1 3 99).1
        = .rechazo .canjeNoEncontradoONoCancelable
    ∧ (cancelar ⟨⟨40, [], true⟩, none, [⟨1, 100, 7, 3, 10, 50, 40, .cancelado, none⟩]⟩
        1 3 99).2
        = ⟨⟨40, [], true⟩, none, [⟨1, 100, 7, 3, 10, 50, 40, .cancelado, none⟩]⟩ := by
  decide

/-- C7 (amended).  Terminal states are immutable: when the redemption found by
id and business is `entregado` or `cancelado`, `marcarEntregado` rejects it
with the matching already-terminal error (`yaEntregado` / `canjeCancelado`)
and `cancelar` rejects it with its combined not-found-or-not-cancellable
error; in both cases the whole database state — redemption states and
`fechaEntrega`, customer balances, reward stock — is untouched, so the only
transitions the controllers ever perform are `pendiente → entregado` and
`pendiente → cancelado`.  `hids` is Mongo's uniqueness of `_id`. -/
theorem transiciones_terminales_bloqueadas (s : EstadoDB) (canjeId : Nat)
    (empresaId : UserId) (now : Int) (canje : Canje)
    (hids : (s.canjes.map Canje.id).Nodup)
    (hfind : s.canjes.find? (fun c => c.id == canjeId && c.empresa == empresaId)
        = some canje)
    (hterm : canje.estado = .entregado ∨ canje.estado = .cancelado) :
    marcarEntregado s canjeId empresaId now
      = .error (if canje.estado = .entregado then .yaEntregado else .canjeCancelado)
    ∧ cancelar s canjeId empresaId now = (.rechazo .canjeNoEncontradoONoCancelable, s) := by
  have hmem := List.mem_of_find?_eq_some hfind
  have hp := List.find?_some hfind
  simp only [Bool.and_eq_true, beq_iff_eq] at hp
  obtain ⟨hid, hemp⟩ := hp
  constructor
  · simp only [marcarEntregado, hfind]
    rcases hterm with h | h <;> simp [h]
  · have hnone : s.canjes.find? (fun c => c.id == canjeId && c.empresa == empresaId
        && c.estado == EstadoCanje.pendiente) = none := by
      rw [List.find?_eq_none]
      intro x hx hpx
      simp only [Bool.and_eq_true, beq_iff_eq] at hpx
      obtain ⟨⟨hxid, hxemp⟩, hxest⟩ := hpx
      have hxc : x = canje := List.inj_on_of_nodup_map hids hx hmem (by rw [hxid, hid])
      subst hxc
      rcases hterm with h | h <;> rw [h] at hxest <;> exact absurd hxest (by simp)
    simp only [cancelar, cancelarConFallo, hnone]

/-- Witness for `transiciones_terminales_bloqueadas`: a delivered redemption
can be neither re-delivered nor cancelled. -/
theorem transiciones_terminales_bloqueadas_testigo :
    marcarEntregado ⟨⟨40, [], true⟩, none, [⟨1, 100, 7, 3, 10, 50, 40, .entregado, some 77⟩]⟩
        1 3 99
      = .error (if (EstadoCanje.entregado : EstadoCanje) = .entregado
          then .yaEntregado else .canjeCancelado)
    ∧ cancelar ⟨⟨40, [], true⟩, none, [⟨1, 100, 7, 3, 10, 50, 40, .entregado, some 77⟩]⟩
        1 3 99
      = (.rechazo .canjeNoEncontradoONoCancelable,
          ⟨⟨40, [], true⟩, none, [⟨1, 100, 7, 3, 10, 50, 40, .entregado, some 77⟩]⟩) :=
  transiciones_terminales_bloqueadas
    ⟨⟨40, [], true⟩, none, [⟨1, 100, 7, 3, 10, 50, 40, .entregado, some 77⟩]⟩
    1 3 99 ⟨1, 100, 7, 3, 10, 50, 40, .entregado, some 77⟩
    (by decide) (by rfl) (Or.inl rfl)

/-- C8 counterexample.  `cancelar` runs its three saves sequentially with no
transaction; if the second save (`recompensa.save()`, canjeController.js:481)
throws after `cliente.save()` succeeded, the controller's `catch` answers 500
and the database is left with the 10 points already re-credited
(40 → 50) while the redemption is still `pendiente` — exactly the
"pending with points already returned" state the claim rules out. -/
theorem fallo_almacenamiento_rompe_atomicidad :
    (cancelarConFallo ⟨⟨40, [⟨1, 10, 0⟩], true⟩, some ⟨1, 10, 2, true, 3⟩,
        [⟨1, 100, 7, 1, 10, 50, 40, .pendiente, none⟩]⟩ 1 1 99 (some 1)).1
      = .errorInterno
    ∧ (cancelarConFallo ⟨⟨40, [⟨1, 10, 0⟩], true⟩, some ⟨1, 10, 2, true, 3⟩,
        [⟨1, 100, 7, 1, 10, 50, 40, .pendiente, none⟩]⟩ 1 1 99 (some 1)).2.cliente.puntos
      = 50
    ∧ ((cancelarConFallo ⟨⟨40, [⟨1, 10, 0⟩], true⟩, some ⟨1, 10, 2, true, 3⟩,
        [⟨1, 100, 7, 1, 10, 50, 40, .pendiente, none⟩]⟩ 1 1 99 (some 1)).2.canjes.map
        Canje.estado) = [.pendiente] := by
  decide

/-- C8 (amended).  Every rejection that `agregarPuntos` (Credit), `canjear`
(Redeem) or `cancelar` (Cancel) itself issues (a 4xx validation failure)
happens before the operation's first write, so it leaves the whole database
state exactly as it was; and in a fault-free run none of the three
controllers ever ends in the 500 branch.  Atomicity therefore holds for all
controller-generated errors, and is broken only by a storage fault landing
between two of an operation's writes (see the counterexample). -/
theorem errores_de_validacion_preservan_estado (s : EstadoDB) (sc : EstadoCreditoDB)
    (config? : Option ConfiguracionPuntos) (monto? : Option ℚ)
    (clienteId : UserId) (recompensaId : RecompensaId) (canjeId : Nat)
    (empresaId : UserId) (now : Int) (fallaEn : Option Nat) :
    (∀ e, (agregarPuntosConFallo sc config? monto? now empresaId fallaEn).1 = .rechazo e →
        (agregarPuntosConFallo sc config? monto? now empresaId fallaEn).2 = sc)
    ∧ (∀ e, (canjearConFallo s clienteId recompensaId canjeId fallaEn).1 = .rechazo e →
        (canjearConFallo s clienteId recompensaId canjeId fallaEn).2 = s)
    ∧ (∀ e, (cancelarConFallo s canjeId empresaId now fallaEn).1 = .rechazo e →
        (cancelarConFallo s canjeId empresaId now fallaEn).2 = s)
    ∧ (agregarPuntosConFallo sc config? monto? now empresaId none).1 ≠ .errorInterno
    ∧ (canjearConFallo s clienteId recompensaId canjeId none).1 ≠ .errorInterno
    ∧ (cancelarConFallo s canjeId empresaId now none).1 ≠ .errorInterno := by
  refine ⟨?_, ?_, ?_, ?_, ?_, ?_⟩
  · intro e he
    simp only [agregarPuntosConFallo] at he ⊢
    rcases monto? with _ | monto
    · rfl
    · rcases h : agregarPuntos config? (some monto)
          (sc.token?.map (fun t => (t, some sc.cliente))) now empresaId with er | r
      · simp [h]
      · simp only [h] at he
        exfalso
        split at he
        · exact absurd he (by simp)
        · split at he
          · exact absurd he (by simp)
          · split at he
            · exact absurd he (by simp)
            · split at he
              · exact absurd he (by simp)
              · exact absurd he (by simp)
  · intro e he
    simp only [canjearConFallo] at he ⊢
    rcases h : canjear s.cliente s.recompensa? clienteId recompensaId canjeId with er | r
    · simp [h]
    · simp only [h] at he
      exfalso
      split at he
      · exact absurd he (by simp)
      · split at he
        · exact absurd he (by simp)
        · split at he
          · exact absurd he (by simp)
          · exact absurd he (by simp)
  · intro e he
    simp only [cancelarConFallo] at he ⊢
    rcases hf : s.canjes.find? (fun c => c.id == canjeId && c.empresa == empresaId
        && c.estado == EstadoCanje.pendiente) with _ | canje
    · simp [hf]
    · simp only [hf] at he
      exfalso
      split at he
      · exact absurd he (by simp)
      · rcases hr : s.recompensa? with _ | r
        · simp only [hr] at he
          split at he
          · exact absurd he (by simp)
          · exact absurd he (by simp)
        · simp only [hr] at he
          split at he
          · exact absurd he (by simp)
          · split at he
            · exact absurd he (by simp)
            · exact absurd he (by simp)
  · simp only [agregarPuntosConFallo]
    rcases monto? with _ | monto
    · simp
    · rcases h : agregarPuntos config? (some monto)
          (sc.token?.map (fun t => (t, some sc.cliente))) now empresaId with er | r <;>
        simp [h]
  · simp only [canjearConFallo]
    rcases h : canjear s.cliente s.recompensa? clienteId recompensaId canjeId with er | r <;>
      simp [h]
  · simp only [cancelarConFallo]
    rcases hf : s.canjes.find? (fun c => c.id == canjeId && c.empresa == empresaId
        && c.estado == EstadoCanje.pendiente) with _ | canje
    · simp [hf]
    · rcases hr : s.recompensa? with _ | r <;> simp [hf, hr]

/-- Witness for `errores_de_validacion_preservan_estado`: rejections on an
empty database (no token issued, no reward, no redemption) leave it
untouched. -/
theorem errores_de_validacion_preservan_estado_testigo :
    (agregarPuntosConFallo ⟨⟨0, [], true⟩, 0, 0, [], none⟩ none (some 250) 0 2 none).2
        = ⟨⟨0, [], true⟩, 0, 0, [], none⟩
    ∧ (canjearConFallo ⟨⟨0, [], true⟩, none, []⟩ 10 7 1 none).2 = ⟨⟨0, [], true⟩, none, []⟩
    ∧ (cancelarConFallo ⟨⟨0, [], true⟩, none, []⟩ 1 3 99 none).2 = ⟨⟨0, [], true⟩, none, []⟩ :=
  ⟨(errores_de_validacion_preservan_estado ⟨⟨0, [], true⟩, none, []⟩
        ⟨⟨0, [], true⟩, 0, 0, [], none⟩ none (some 250) 10 7 1 2 99 none).1
      (.qrInvalido .qrNotFound) (by rfl),
    (errores_de_validacion_preservan_estado ⟨⟨0, [], true⟩, none, []⟩
        ⟨⟨0, [], true⟩, 0, 0, [], none⟩ none (some 250) 10 7 1 2 99 none).2.1
      .recompensaNoEncontrada (by rfl),
    (errores_de_validacion_preservan_estado ⟨⟨0, [], true⟩, none, []⟩
        ⟨⟨0, [], true⟩, 0, 0, [], none⟩ none (some 250) 10 7 1 3 99 none).2.2.1
      .canjeNoEncontradoONoCancelable (by rfl)⟩

/-- Decomposition of a successful `canjear`: the guards it passed and the
exact successor state it produced. -/
theorem canjear_ok_descompone (cliente : Cliente) (recompensa : Recompensa)
    (clienteId : UserId) (recompensaId : RecompensaId) (canjeId : Nat)
    (r : ResultadoCanje)
    (hok : canjear cliente (some recompensa) clienteId recompensaId canjeId = .ok r) :
    recompensa.activo = true
    ∧ (recompensa.stock = -1 ∨ 0 < recompensa.stock)
    ∧ recompensa.puntosRequeridos ≤ cliente.puntos
    ∧ recompensa.puntosRequeridos ≤ puntosEnEmpresa cliente.puntosPorEmpresa recompensa.empresa
    ∧ r = ⟨{ cliente with
            puntos := cliente.puntos - recompensa.puntosRequeridos,
            puntosPorEmpresa := restarPuntosEmpresa cliente.puntosPorEmpresa
              recompensa.empresa recompensa.puntosRequeridos },
          { recompensa with
            stock := if recompensa.stock ≠ -1 then recompensa.stock - 1 else recompensa.stock,
            canjesRealizados := recompensa.canjesRealizados + 1 },
          ⟨canjeId, clienteId, recompensaId, recompensa.empresa, recompensa.puntosRequeridos,
            cliente.puntos, cliente.puntos - recompensa.puntosRequeridos, .pendiente, none⟩⟩ := by
  simp only [canjear] at hok
  split at hok
  · exact absurd hok (by simp)
  · split at hok
    · exact absurd hok (by simp)
    · split at hok
      · exact absurd hok (by simp)
      · split at hok
        · exact absurd hok (by simp)
        · rename_i hact hstock hglob hemp
          injection hok with hok
          exact ⟨by simpa using hact, by omega, by omega, by omega, hok.symm⟩

/-- Computation of a fault-free `cancelar` whose `findOne` succeeds on a
pending redemption, with the reward still present. -/
theorem cancelar_pendiente_computa (s : EstadoDB) (canjeId : Nat) (empresaId : UserId)
    (now : Int) (canje : Canje) (r : Recompensa)
    (hfind : s.canjes.find? (fun c => c.id == canjeId && c.empresa == empresaId
        && c.estado == EstadoCanje.pendiente) = some canje)
    (hrec : s.recompensa? = some r) :
    cancelar s canjeId empresaId now
      = (.exito, ⟨devolverPuntos s.cliente canje now,
          some { r with
            stock := if r.stock ≠ -1 then r.stock + 1 else r.stock,
            canjesRealizados := max 0 (r.canjesRealizados - 1) },
          actualizarCanje s.canjes { canje with estado := .cancelado }⟩) := by
  simp only [cancelar, cancelarConFallo, hfind, hrec]
  rfl

/-- A successful fault-free `canjear` run appends the new pending redemption
and stores the updated customer and reward. -/
theorem canjearConFallo_exito (s : EstadoDB) (clienteId : UserId)
    (recompensaId : RecompensaId) (canjeId : Nat) (r : ResultadoCanje)
    (hok : canjear s.cliente s.recompensa? clienteId recompensaId canjeId = .ok r) :
    canjearConFallo s clienteId recompensaId canjeId none
      = (.exito, ⟨r.cliente, some r.recompensa, s.canjes ++ [r.canje]⟩) := by
  simp only [canjearConFallo, hok]
  rfl

/-- C3.  Exact redemption reversal: whenever `canjear` succeeds, running
`cancelar` by the same business on the redemption it created restores the
customer's global `puntos`, the per-issuer balance with the reward's business,
the reward's `stock` and its `canjesRealizados` counter to their exact
pre-redemption values.  `hreq`/`hcnt` are the schema constraints of
src/models/Recompensa.js; `hfresh` is the freshness of the new record's
Mongo `_id`. -/
theorem reversion_canje_exacta (s : EstadoDB) (clienteId : UserId)
    (recompensaId : RecompensaId) (canjeId : Nat) (now : Int)
    (recompensa : Recompensa) (r : ResultadoCanje)
    (hrec : s.recompensa? = some recompensa)
    (hreq : 1 ≤ recompensa.puntosRequeridos)
    (hcnt : 0 ≤ recompensa.canjesRealizados)
    (hfresh : ∀ c ∈ s.canjes, c.id ≠ canjeId)
    (hok : canjear s.cliente s.recompensa? clienteId recompensaId canjeId = .ok r) :
    ∃ s2 : EstadoDB,
      cancelar (canjearConFallo s clienteId recompensaId canjeId none).2
          canjeId recompensa.empresa now = (.exito, s2)
      ∧ s2.cliente.puntos = s.cliente.puntos
      ∧ puntosEnEmpresa s2.cliente.puntosPorEmpresa recompensa.empresa
          = puntosEnEmpresa s.cliente.puntosPorEmpresa recompensa.empresa
      ∧ ∃ rec2, s2.recompensa? = some rec2
          ∧ rec2.stock = recompensa.stock
          ∧ rec2.canjesRealizados = recompensa.canjesRealizados := by
  have hok' := hok
  rw [hrec] at hok'
  obtain ⟨hact, hstock, hglob, hemp, hr⟩ :=
    canjear_ok_descompone s.cliente recompensa clienteId recompensaId canjeId r hok'
  subst hr
  have hpost := canjearConFallo_exito s clienteId recompensaId canjeId _ hok
  dsimp only at hpost
  have hnone : s.canjes.find? (fun c => c.id == canjeId && c.empresa == recompensa.empresa
      && c.estado == EstadoCanje.pendiente) = none := by
    rw [List.find?_eq_none]
    intro c hc
    simp only [Bool.and_eq_true, beq_iff_eq]
    intro h
    exact hfresh c hc h.1.1
  have hfind1 : ((s.canjes ++ [(⟨canjeId, clienteId, recompensaId, recompensa.empresa,
      recompensa.puntosRequeridos, s.cliente.puntos,
      s.cliente.puntos - recompensa.puntosRequeridos, .pendiente, none⟩ : Canje)]).find?
      (fun c => c.id == canjeId && c.empresa == recompensa.empresa
        && c.estado == EstadoCanje.pendiente))
      = some ⟨canjeId, clienteId, recompensaId, recompensa.empresa,
          recompensa.puntosRequeridos, s.cliente.puntos,
          s.cliente.puntos - recompensa.puntosRequeridos, .pendiente, none⟩ := by
    rw [List.find?_append, hnone]
    simp [List.find?]
  rw [hpost]
  have hcanc := cancelar_pendiente_computa
    ⟨{ s.cliente with
        puntos := s.cliente.puntos - recompensa.puntosRequeridos,
        puntosPorEmpresa := restarPuntosEmpresa s.cliente.puntosPorEmpresa
          recompensa.empresa recompensa.puntosRequeridos },
      some { recompensa with
        stock := if recompensa.stock ≠ -1 then recompensa.stock - 1 else recompensa.stock,
        canjesRealizados := recompensa.canjesRealizados + 1 },
      s.canjes ++ [⟨canjeId, clienteId, recompensaId, recompensa.empresa,
        recompensa.puntosRequeridos, s.cliente.puntos,
        s.cliente.puntos - recompensa.puntosRequeridos, .pendiente, none⟩]⟩
    canjeId recompensa.empresa now
    ⟨canjeId, clienteId, recompensaId, recompensa.empresa,
      recompensa.puntosRequeridos, s.cliente.puntos,
      s.cliente.puntos - recompensa.puntosRequeridos, .pendiente, none⟩
    { recompensa with
      stock := if recompensa.stock ≠ -1 then recompensa.stock - 1 else recompensa.stock,
      canjesRealizados := recompensa.canjesRealizados + 1 }
    hfind1 rfl
  refine ⟨_, hcanc, ?_, ?_, ?_⟩
  · simp only [devolverPuntos]
    omega
  · simp only [devolverPuntos]
    rw [puntosEnEmpresa_acreditar,
      puntosEnEmpresa_restar _ _ _ hreq (by omega)]
    omega
  · refine ⟨_, rfl, ?_, ?_⟩
    · rcases hstock with h | h
      · simp [h]
      · have h1 : recompensa.stock ≠ -1 := by omega
        dsimp only
        rw [if_pos h1, if_pos (show recompensa.stock - 1 ≠ -1 by omega)]
        omega
    · have h2 : recompensa.canjesRealizados + 1 - 1 = recompensa.canjesRealizados := by omega
      dsimp only
      rw [h2]
      exact max_eq_right hcnt

/-- Witness for `reversion_canje_exacta`: a concrete 10-point redemption at a
business holding 20 of the customer's 50 points, on a reward with stock 3,
then cancelled. -/
theorem reversion_canje_exacta_testigo :
    ∃ s2 : EstadoDB,
      cancelar (canjearConFallo ⟨⟨50, [⟨1, 20, 0⟩, ⟨2, 30, 0⟩], true⟩,
          some ⟨1, 10, 3, true, 2⟩, []⟩ 100 7 1 none).2 1 1 99 = (.exito, s2)
      ∧ s2.cliente.puntos = 50
      ∧ puntosEnEmpresa s2.cliente.puntosPorEmpresa 1
          = puntosEnEmpresa [⟨1, 20, 0⟩, ⟨2, 30, 0⟩] 1
      ∧ ∃ rec2, s2.recompensa? = some rec2 ∧ rec2.stock = 3 ∧ rec2.canjesRealizados = 2 :=
  reversion_canje_exacta ⟨⟨50, [⟨1, 20, 0⟩, ⟨2, 30, 0⟩], true⟩, some ⟨1, 10, 3, true, 2⟩, []⟩
    100 7 1 99 ⟨1, 10, 3, true, 2⟩
    ⟨⟨40, [⟨1, 10, 0⟩, ⟨2, 30, 0⟩], true⟩, ⟨1, 10, 2, true, 3⟩,
      ⟨1, 100, 7, 1, 10, 50, 40, .pendiente, none⟩⟩
    rfl (by decide) (by decide) (by simp) (by rfl)
